import Mathlib

/-!
Verification development for the TaxPilot conversation-flow state machine
(src/unnamed/part_005, the compiled flow manager) and the complexity/routing
engine (declared in src/dist/services/routing.d.ts; thresholds documented in
src/src/services/taxproLoader.ts; availability filter in
src/dist/database/index.js).

The flow manager is embedded directly from the source.  JavaScript in-place
mutation of the per-client state object is modelled by explicit state
passing; `Date` timestamps are modelled as a `Nat` clock parameter passed to
each operation; the `db.getClient` ground-truth lookup is passed in as an
`Option ClientProfile` snapshot (the flow operations never write to the
client store).  The long free-text `instructions` strings of `STAGE_CONFIG`
are presentation-only and are omitted from the embedded status record; all
decision-relevant fields (completion checks, blockers, progress arithmetic)
are embedded faithfully.
-/

/-- The ten conversation stages, in the order of `FLOW_SEQUENCE`. -/
inductive ConversationStage
  | welcome
  | intake_questions
  | summary_review
  | summary_confirmation
  | document_checklist
  | availability_inquiry
  | taxpro_routing
  | appointment_scheduling
  | reminders_setup
  | complete
deriving DecidableEq, Repr

/-- The flow sequence, in order (`FLOW_SEQUENCE` in the source). -/
def FLOW_SEQUENCE : List ConversationStage :=
  [.welcome, .intake_questions, .summary_review, .summary_confirmation,
   .document_checklist, .availability_inquiry, .taxpro_routing,
   .appointment_scheduling, .reminders_setup, .complete]

/-- `FLOW_SEQUENCE.indexOf(stage)` as used throughout the source. -/
def stageIdx (s : ConversationStage) : Nat :=
  FLOW_SEQUENCE.indexOf s

/-- Appointment type of the scheduling preferences (virtual / in_person). -/
inductive AppointmentType
  | virtual
  | in_person
deriving DecidableEq, Repr

/-- The `preferences` record of `setSchedulingPreferences`. -/
structure SchedulePrefs where
  preferredDates : List String
  preferredTimes : List String
  appointmentType : AppointmentType
deriving DecidableEq, Repr

/-- A JavaScript value stored inside a stage-data object.  The flow code
only ever writes booleans, strings, and the preferences record into stage
data, and its completion checks only ever read boolean fields. -/
inductive JsVal
  | bool (b : Bool)
  | str (s : String)
  | prefs (p : SchedulePrefs)
deriving DecidableEq, Repr

/-- A JavaScript object, observed through first-match key lookup. -/
abbrev JsObj := List (String × JsVal)

/-- Field lookup on a JavaScript object (first binding wins). -/
def jsGet (o : JsObj) (k : String) : Option JsVal :=
  match o.find? (fun p => p.1 == k) with
  | some p => some p.2
  | none => none

/-- The spread merge `{...old, ...new}`: bindings of `new` shadow those of
`old` under first-match lookup. -/
def jsMerge (old new : JsObj) : JsObj :=
  new ++ old

/-- The fields of a client profile that the flow manager reads
(`client.intakeCompleted`, `client.documentsCollected`,
`client.documentsPending`, `client.assignedTaxPro`, `client.appointmentId`).
The remaining profile fields are never consulted by the flow code. -/
structure ClientProfile where
  id : String
  intakeCompleted : Bool
  documentsCollected : List String
  documentsPending : List String
  assignedTaxPro : Option String
  appointmentId : Option String
deriving DecidableEq, Repr

/-- `ConversationFlowState`.  `stageData` is a per-stage map represented as
an association list (assignment replaces the binding for a stage);
`startedAt` and `lastActivityAt` hold the clock value passed to the
operation that wrote them. -/
structure ConversationFlowState where
  clientId : String
  sessionId : String
  currentStage : ConversationStage
  completedStages : List ConversationStage
  stageData : List (ConversationStage × JsObj)
  startedAt : Nat
  lastActivityAt : Nat
  summaryConfirmed : Bool
  selectedTaxProId : Option String
  preferredSchedule : Option SchedulePrefs
deriving DecidableEq, Repr

/-- Read `state.stageData[stage]`. -/
def sdGet (m : List (ConversationStage × JsObj)) (k : ConversationStage) : Option JsObj :=
  match m.find? (fun p => p.1 == k) with
  | some p => some p.2
  | none => none

/-- Assign `state.stageData[stage] = v` (canonical representation: the new
binding is placed in front and stale bindings for the stage are dropped). -/
def sdSet (m : List (ConversationStage × JsObj)) (k : ConversationStage) (v : JsObj) :
    List (ConversationStage × JsObj) :=
  (k, v) :: m.filter (fun p => p.1 != k)

/-- The guarded push `if (!state.completedStages.includes(s)) push(s)` that
the source uses everywhere it marks a stage completed. -/
def pushStage (st : ConversationFlowState) (s : ConversationStage) : ConversationFlowState :=
  if s ∈ st.completedStages then st
  else { st with completedStages := st.completedStages ++ [s] }

/-- Reads a boolean marker out of a stage-data object, as in
`(state.stageData.x as \x7b shown?: boolean \x7d)?.shown === true`. -/
def stageDataBool (st : ConversationFlowState) (stage : ConversationStage) (key : String) : Bool :=
  match sdGet st.stageData stage with
  | some obj =>
    match jsGet obj key with
    | some (.bool b) => b
    | _ => false
  | none => false

/-- The per-stage `completionCheck` closures of `STAGE_CONFIG`, returning
`(canProceed, blockers)`. -/
def stageCompletionCheck (stage : ConversationStage) (st : ConversationFlowState)
    (client : Option ClientProfile) : Bool × List String :=
  match stage with
  | .welcome =>
    let hasSession := decide (st.sessionId.length > 0)
    (hasSession, if hasSession then [] else ["Intake session must be started"])
  | .intake_questions =>
    let isComplete := match client with
      | some c => c.intakeCompleted
      | none => false
    (isComplete, if isComplete then [] else ["All intake questions must be completed"])
  | .summary_review =>
    let shown := stageDataBool st .summary_review "shown"
    (shown, if shown then [] else ["Summary must be displayed to user"])
  | .summary_confirmation =>
    (st.summaryConfirmed,
      if st.summaryConfirmed then [] else ["User must confirm their summary information"])
  | .document_checklist =>
    let generated := stageDataBool st .document_checklist "generated"
    (generated, if generated then [] else ["Document checklist must be generated and shown"])
  | .availability_inquiry =>
    let hasPreferences := st.preferredSchedule.isSome
    (hasPreferences, if hasPreferences then [] else ["Scheduling preferences must be collected"])
  | .taxpro_routing =>
    let hasTaxPro := st.selectedTaxProId.isSome
    (hasTaxPro, if hasTaxPro then [] else ["Tax professional must be selected"])
  | .appointment_scheduling =>
    let hasAppointment := match client with
      | some c => c.appointmentId.isSome
      | none => false
    (hasAppointment, if hasAppointment then [] else ["Appointment must be created"])
  | .reminders_setup =>
    let created := stageDataBool st .reminders_setup "created"
    (created, if created then [] else ["Reminders should be created"])
  | .complete => (true, [])

/-- The `nextAction` string of each stage of `STAGE_CONFIG`. -/
def stageNextAction : ConversationStage → String
  | .welcome => "Start intake session and greet the user"
  | .intake_questions => "Continue asking intake questions"
  | .summary_review => "Generate and present the summary to the user"
  | .summary_confirmation => "Wait for user confirmation or process edit requests"
  | .document_checklist => "Generate and present the document checklist"
  | .availability_inquiry => "Ask about appointment availability and preferences"
  | .taxpro_routing => "Route client to appropriate tax professional"
  | .appointment_scheduling => "Book the appointment"
  | .reminders_setup => "Set up reminders for documents and appointment"
  | .complete => "Provide closing summary and offer additional help"

/-- The `suggestedTools` list of each stage of `STAGE_CONFIG`. -/
def stageSuggestedTools : ConversationStage → List String
  | .welcome => ["start_intake"]
  | .intake_questions => ["process_intake_response", "get_intake_progress"]
  | .summary_review => ["get_client_summary"]
  | .summary_confirmation => ["process_intake_response", "get_client_summary"]
  | .document_checklist => ["generate_document_checklist", "get_document_checklist"]
  | .availability_inquiry => ["get_appointment_estimate"]
  | .taxpro_routing =>
    ["calculate_complexity", "route_to_tax_pro", "get_tax_pro_recommendations",
     "list_tax_professionals"]
  | .appointment_scheduling => ["create_appointment"]
  | .reminders_setup =>
    ["create_document_reminders", "get_client_reminders", "get_pending_documents"]
  | .complete => ["get_client", "get_client_summary"]

/-- The `progress` record of a `FlowActionResult`. -/
structure FlowProgress where
  current : Nat
  total : Nat
  percentage : Nat
deriving DecidableEq, Repr

/-- `FlowActionResult` (the free-text `instructions` field is omitted; it is
presentation-only). -/
structure FlowActionResult where
  currentStage : ConversationStage
  nextAction : String
  canProceed : Bool
  blockers : List String
  suggestedTools : List String
  progress : FlowProgress
deriving DecidableEq, Repr

/-- The status snapshot `getFlowStatus` builds for an existing state.  With
ten stages, `Math.round(((i + 1) / 10) * 100)` is exactly `(i + 1) * 10`. -/
def flowStatusOf (client : Option ClientProfile) (st : ConversationFlowState) :
    FlowActionResult :=
  let check := stageCompletionCheck st.currentStage st client
  let i := stageIdx st.currentStage
  { currentStage := st.currentStage
    nextAction := stageNextAction st.currentStage
    canProceed := check.1
    blockers := check.2
    suggestedTools := stageSuggestedTools st.currentStage
    progress := { current := i + 1, total := FLOW_SEQUENCE.length, percentage := (i + 1) * 10 } }

/-- `initializeFlow`: a fresh state at `welcome` with empty completed list. -/
def initializeFlow (clientId sessionId : String) (now : Nat) : ConversationFlowState :=
  { clientId := clientId
    sessionId := sessionId
    currentStage := .welcome
    completedStages := []
    stageData := []
    startedAt := now
    lastActivityAt := now
    summaryConfirmed := false
    selectedTaxProId := none
    preferredSchedule := none }

/-- The stage-data merge of `advanceFlow`:
`state.stageData[cur] = \x7b ...(old || \x7b\x7d), ...stageData \x7d`. -/
def mergeStageData (st : ConversationFlowState) (sd : Option JsObj) : ConversationFlowState :=
  match sd with
  | none => st
  | some d =>
    let old := (sdGet st.stageData st.currentStage).getD []
    { st with stageData := sdSet st.stageData st.currentStage (jsMerge old d) }

/-- The stage step of `advanceFlow`: move to `FLOW_SEQUENCE[i + 1]` only when
`i < FLOW_SEQUENCE.length - 1`. -/
def stepStage (s : ConversationStage) : ConversationStage :=
  if stageIdx s < FLOW_SEQUENCE.length - 1 then FLOW_SEQUENCE.getD (stageIdx s + 1) s
  else s

/-- The state transformation of `advanceFlow` on an existing state: merge the
optional stage data, re-check the current stage's completion, and if it can
proceed, push the current stage onto `completedStages`, step the stage, and
stamp `lastActivityAt`. -/
def advanceFlowCore (client : Option ClientProfile) (st : ConversationFlowState)
    (sd : Option JsObj) (now : Nat) : ConversationFlowState :=
  let st1 := mergeStageData st sd
  if (stageCompletionCheck st1.currentStage st1 client).1 then
    let st2 := pushStage st1 st1.currentStage
    { st2 with
        currentStage := stepStage st1.currentStage
        lastActivityAt := now }
  else st1

/-- The field writes of `confirmSummary` before it delegates to
`advanceFlow`. -/
def confirmCore (st : ConversationFlowState) : ConversationFlowState :=
  { st with
      summaryConfirmed := true
      stageData := sdSet st.stageData .summary_confirmation [("confirmed", .bool true)] }

/-- The field writes of `setSchedulingPreferences` before it delegates to
`advanceFlow`. -/
def setSchedCore (st : ConversationFlowState) (prefs : SchedulePrefs) : ConversationFlowState :=
  { st with
      preferredSchedule := some prefs
      stageData := sdSet st.stageData .availability_inquiry
        [("collected", .bool true), ("preferences", .prefs prefs)] }

/-- The field writes of `setSelectedTaxPro` before it delegates to
`advanceFlow`. -/
def setTaxProCore (st : ConversationFlowState) (taxProId : String) : ConversationFlowState :=
  { st with
      selectedTaxProId := some taxProId
      stageData := sdSet st.stageData .taxpro_routing
        [("selected", .bool true), ("taxProId", .str taxProId)] }

/-- The intake branch of `syncFlowWithState`: if intake is completed but the
summary is not confirmed, mark `welcome` and `intake_questions` completed and
jump to `summary_review` when still at or before `intake_questions`. -/
def syncIntake (client : ClientProfile) (st : ConversationFlowState) : ConversationFlowState :=
  if client.intakeCompleted && !st.summaryConfirmed then
    let s2 := pushStage (pushStage st .welcome) .intake_questions
    if s2.currentStage = .welcome ∨ s2.currentStage = .intake_questions then
      { s2 with currentStage := .summary_review }
    else s2
  else st

/-- The checklist branch of `syncFlowWithState`: if any documents are
recorded, stamp `stageData.document_checklist = \x7b generated: true \x7d`. -/
def syncDocs (client : ClientProfile) (st : ConversationFlowState) : ConversationFlowState :=
  if client.documentsCollected.length > 0 || client.documentsPending.length > 0 then
    { st with stageData := sdSet st.stageData .document_checklist [("generated", .bool true)] }
  else st

/-- The assigned-tax-pro branch of `syncFlowWithState`. -/
def syncTaxPro (client : ClientProfile) (st : ConversationFlowState) : ConversationFlowState :=
  match client.assignedTaxPro with
  | some tp => { st with selectedTaxProId := some tp }
  | none => st

/-- The appointment branch of `syncFlowWithState`: push
`appointment_scheduling` onto `completedStages` when an appointment exists. -/
def syncAppointment (client : ClientProfile) (st : ConversationFlowState) :
    ConversationFlowState :=
  match client.appointmentId with
  | some _ => pushStage st .appointment_scheduling
  | none => st

/-- All four ground-truth branches of `syncFlowWithState`, in source order. -/
def syncClientFacts (client : ClientProfile) (st : ConversationFlowState) :
    ConversationFlowState :=
  syncAppointment client (syncTaxPro client (syncDocs client (syncIntake client st)))

/-- The state transformation of `syncFlowWithState` on the (existing or
freshly initialized) state: apply the ground-truth branches when the client
exists, then stamp `lastActivityAt`. -/
def syncFlowCore (client : Option ClientProfile) (st : ConversationFlowState) (now : Nat) :
    ConversationFlowState :=
  let st1 := match client with
    | some c => syncClientFacts c st
    | none => st
  { st1 with lastActivityAt := now }

/-- The `activeFlows` map, keyed by client id. -/
abbrev ActiveFlows := List (String × ConversationFlowState)

/-- `activeFlows.get(clientId)`. -/
def lookupFlow (flows : ActiveFlows) (clientId : String) : Option ConversationFlowState :=
  match flows.find? (fun p => p.1 == clientId) with
  | some p => some p.2
  | none => none

/-- `activeFlows.set(clientId, st)` (canonical representation). -/
def setFlow (flows : ActiveFlows) (clientId : String) (st : ConversationFlowState) :
    ActiveFlows :=
  (clientId, st) :: flows.filter (fun p => p.1 != clientId)

/-- `getFlowState`: lookup or null. -/
def getFlowState (flows : ActiveFlows) (clientId : String) : Option ConversationFlowState :=
  lookupFlow flows clientId

/-- `getOrCreateFlowState`: refresh `lastActivityAt` on an existing state
(the `sessionId` argument is not written to it), otherwise initialize. -/
def getOrCreateFlowState (flows : ActiveFlows) (clientId sessionId : String) (now : Nat) :
    ConversationFlowState × ActiveFlows :=
  match lookupFlow flows clientId with
  | some st =>
    let st' := { st with lastActivityAt := now }
    (st', setFlow flows clientId st')
  | none =>
    let st := initializeFlow clientId sessionId now
    (st, setFlow flows clientId st)

/-- `getFlowStatus`: null when no flow exists. -/
def getFlowStatus (client : Option ClientProfile) (flows : ActiveFlows) (clientId : String) :
    Option FlowActionResult :=
  match lookupFlow flows clientId with
  | none => none
  | some st => some (flowStatusOf client st)

/-- `advanceFlow`: null when no flow exists; otherwise transform the state
(JavaScript mutates the stored object in place, so the updated state is
what the map holds afterwards) and return the fresh status. -/
def advanceFlow (client : Option ClientProfile) (flows : ActiveFlows) (clientId : String)
    (sd : Option JsObj) (now : Nat) : Option FlowActionResult × ActiveFlows :=
  match lookupFlow flows clientId with
  | none => (none, flows)
  | some st =>
    let st' := advanceFlowCore client st sd now
    (some (flowStatusOf client st'), setFlow flows clientId st')

/-- `confirmSummary`: null when no flow exists; otherwise write the
confirmation fields and delegate to `advanceFlow`. -/
def confirmSummary (client : Option ClientProfile) (flows : ActiveFlows) (clientId : String)
    (now : Nat) : Option FlowActionResult × ActiveFlows :=
  match lookupFlow flows clientId with
  | none => (none, flows)
  | some st =>
    let st' := advanceFlowCore client (confirmCore st) none now
    (some (flowStatusOf client st'), setFlow flows clientId st')

/-- `setSchedulingPreferences`: null when no flow exists; otherwise write the
preference fields and delegate to `advanceFlow`. -/
def setSchedulingPreferences (client : Option ClientProfile) (flows : ActiveFlows)
    (clientId : String) (prefs : SchedulePrefs) (now : Nat) :
    Option FlowActionResult × ActiveFlows :=
  match lookupFlow flows clientId with
  | none => (none, flows)
  | some st =>
    let st' := advanceFlowCore client (setSchedCore st prefs) none now
    (some (flowStatusOf client st'), setFlow flows clientId st')

/-- `setSelectedTaxPro`: null when no flow exists; otherwise write the
selection fields and delegate to `advanceFlow`. -/
def setSelectedTaxPro (client : Option ClientProfile) (flows : ActiveFlows) (clientId : String)
    (taxProId : String) (now : Nat) : Option FlowActionResult × ActiveFlows :=
  match lookupFlow flows clientId with
  | none => (none, flows)
  | some st =>
    let st' := advanceFlowCore client (setTaxProCore st taxProId) none now
    (some (flowStatusOf client st'), setFlow flows clientId st')

/-- `syncFlowWithState`: use the existing state or initialize one, apply the
reconciliation pass, and store the result (the interim insertion performed
by `initializeFlow` is overwritten by the final store of the same key). -/
def syncFlowWithState (client : Option ClientProfile) (flows : ActiveFlows)
    (clientId sessionId : String) (now : Nat) : ConversationFlowState × ActiveFlows :=
  let st0 := match lookupFlow flows clientId with
    | some st => st
    | none => initializeFlow clientId sessionId now
  let st1 := syncFlowCore client st0 now
  (st1, setFlow flows clientId st1)

/-- Per-client flow states reachable through the flow operations named in
the specification (each step observes an arbitrary client-store snapshot,
since the store is mutated by other components between flow calls). -/
inductive ReachableFlow : ConversationFlowState → Prop
  | init (clientId sessionId : String) (now : Nat) :
      ReachableFlow (initializeFlow clientId sessionId now)
  | advance (client : Option ClientProfile) (sd : Option JsObj) (now : Nat)
      {st : ConversationFlowState} (h : ReachableFlow st) :
      ReachableFlow (advanceFlowCore client st sd now)
  | confirm (client : Option ClientProfile) (now : Nat)
      {st : ConversationFlowState} (h : ReachableFlow st) :
      ReachableFlow (advanceFlowCore client (confirmCore st) none now)
  | setSched (client : Option ClientProfile) (prefs : SchedulePrefs) (now : Nat)
      {st : ConversationFlowState} (h : ReachableFlow st) :
      ReachableFlow (advanceFlowCore client (setSchedCore st prefs) none now)
  | setTaxPro (client : Option ClientProfile) (taxProId : String) (now : Nat)
      {st : ConversationFlowState} (h : ReachableFlow st) :
      ReachableFlow (advanceFlowCore client (setTaxProCore st taxProId) none now)
  | sync (client : Option ClientProfile) (now : Nat)
      {st : ConversationFlowState} (h : ReachableFlow st) :
      ReachableFlow (syncFlowCore client st now)

/-- Reachability through the same operations with `syncFlowWithState`
excluded. -/
inductive ReachableFlowNoSync : ConversationFlowState → Prop
  | init (clientId sessionId : String) (now : Nat) :
      ReachableFlowNoSync (initializeFlow clientId sessionId now)
  | advance (client : Option ClientProfile) (sd : Option JsObj) (now : Nat)
      {st : ConversationFlowState} (h : ReachableFlowNoSync st) :
      ReachableFlowNoSync (advanceFlowCore client st sd now)
  | confirm (client : Option ClientProfile) (now : Nat)
      {st : ConversationFlowState} (h : ReachableFlowNoSync st) :
      ReachableFlowNoSync (advanceFlowCore client (confirmCore st) none now)
  | setSched (client : Option ClientProfile) (prefs : SchedulePrefs) (now : Nat)
      {st : ConversationFlowState} (h : ReachableFlowNoSync st) :
      ReachableFlowNoSync (advanceFlowCore client (setSchedCore st prefs) none now)
  | setTaxPro (client : Option ClientProfile) (taxProId : String) (now : Nat)
      {st : ConversationFlowState} (h : ReachableFlowNoSync st) :
      ReachableFlowNoSync (advanceFlowCore client (setTaxProCore st taxProId) none now)

/-!
Complexity and routing engine.  The implementation file
`src/services/routing.ts` is not present under src/ — only its declaration
file `src/dist/services/routing.d.ts`, its callers, the thresholds comment
in `src/src/services/taxproLoader.ts`, and the tax-pro store in
`src/dist/database/index.js` are.  Functions marked `Modelled from the
spec:` below reconstruct the missing implementation from the
specification's words; `determineMaxComplexity`, `getAvailableTaxPros` and
the initial tax-professional roster are embedded from the source files that
do exist.
-/

/-- The ordered complexity levels. -/
inductive ComplexityLevel
  | simple
  | moderate
  | complex
  | expert
deriving DecidableEq, Repr

/-- The ordinal of a complexity level (simple < moderate < complex < expert). -/
def complexityOrd : ComplexityLevel → Nat
  | .simple => 0
  | .moderate => 1
  | .complex => 2
  | .expert => 3

/-- `determineMaxComplexity` from src/src/services/taxproLoader.ts: maps a
numeric complexity range to a level using the thresholds the source comment
attributes to routing.ts (simple 0-20, moderate 21-50, complex 51-80,
expert 81+).  Only `maxLevel` is consulted. -/
def determineMaxComplexity (minLevel maxLevel : Int) : ComplexityLevel :=
  if maxLevel ≥ 81 then .expert
  else if maxLevel ≥ 51 then .complex
  else if maxLevel ≥ 21 then .moderate
  else .simple

/-- Modelled from the spec: `getComplexityLevel` of src/services/routing.ts
(absent from src/; only routing.d.ts declares it).  Per the spec and the
COMPLEXITY_THRESHOLDS comment in taxproLoader.ts, the tiers are
simple [0,20], moderate [21,50], complex [51,80], expert [81,100], each
inclusive of its lower end. -/
def getComplexityLevel (score : Int) : ComplexityLevel :=
  if score ≥ 81 then .expert
  else if score ≥ 51 then .complex
  else if score ≥ 21 then .moderate
  else .simple

/-- The closed specialization enum (the source's `Specialization`; renamed
here because Mathlib already declares a `Specialization`). -/
inductive TaxSpecialization
  | individual
  | self_employment
  | small_business
  | investments
  | real_estate
  | crypto
  | foreign_income
  | estate_planning
  | audit_representation
deriving DecidableEq, Repr

/-- The special-situation tags of a client profile named by the spec
(crypto, foreign accounts, rental/real-estate, self-employment/business
income, audit history). -/
inductive SpecialSituation
  | crypto
  | foreign_accounts
  | rental_property
  | self_employment_income
  | audit_history
deriving DecidableEq, Repr

/-- Modelled from the spec: the fixed positive weight each special-situation
tag contributes to `calculateComplexityScore` (the exact weight table is an
implementation detail of the absent routing.ts; the spec requires each
weight to be a fixed positive number). -/
def situationWeight : SpecialSituation → Nat
  | .crypto => 25
  | .foreign_accounts => 20
  | .rental_property => 15
  | .self_employment_income => 15
  | .audit_history => 10

/-- Modelled from the spec: the specialization each special-situation tag
requires (crypto tag requires the crypto specialization, and so on). -/
def situationSpecialization : SpecialSituation → TaxSpecialization
  | .crypto => .crypto
  | .foreign_accounts => .foreign_income
  | .rental_property => .real_estate
  | .self_employment_income => .self_employment
  | .audit_history => .audit_representation

/-- The client-profile fields the routing engine reads: income-type tags,
deduction tags, filing status, dependent count and special-situation tags. -/
structure RoutingClient where
  incomeTypes : List String
  deductions : List String
  filingStatus : String
  dependents : Nat
  specialSituations : List SpecialSituation
deriving DecidableEq, Repr

/-- Modelled from the spec: the small filing-status weight. -/
def filingStatusWeight (fs : String) : Nat :=
  if fs = "married_filing_jointly" then 3
  else if fs = "head_of_household" then 3
  else 0

/-- Modelled from the spec: the contributions of income-type tags, deduction
complexity, filing status and dependent count to the complexity score. -/
def baseScore (c : RoutingClient) : Nat :=
  5 * c.incomeTypes.length + 3 * c.deductions.length +
    filingStatusWeight c.filingStatus + min 10 (2 * c.dependents)

/-- Modelled from the spec: `calculateComplexityScore` of routing.ts (absent
from src/): an additive score clamped into [0,100], summing weighted
contributions of income-type tags, deductions, filing status, dependents
and the fixed positive special-situation weights. -/
def calculateComplexityScore (c : RoutingClient) : Nat :=
  min 100 (baseScore c + (c.specialSituations.map situationWeight).sum)

/-- Modelled from the spec: `getRequiredSpecializations` of routing.ts
(absent from src/): derived directly from which special-situation tags are
present; with no special tags the requirement is `individual` only. -/
def getRequiredSpecializations (c : RoutingClient) : List TaxSpecialization :=
  match c.specialSituations.map situationSpecialization with
  | [] => [.individual]
  | l => l

/-- The complexity level of a client, per routing.d.ts composition. -/
def clientComplexityLevel (c : RoutingClient) : ComplexityLevel :=
  getComplexityLevel (calculateComplexityScore c)

/-- `TaxProfessional` (rating is stored in tenths to avoid floating point:
the source's 4.8 is 48). -/
structure TaxProfessional where
  id : String
  name : String
  email : String
  specializations : List TaxSpecialization
  maxComplexity : ComplexityLevel
  currentLoad : Nat
  maxDailyAppointments : Nat
  available : Bool
  ratingTenths : Nat
deriving DecidableEq, Repr

/-- `Database.getAvailableTaxPros` from src/dist/database/index.js: the
professionals that are available and under their daily load cap. -/
def getAvailableTaxPros (pool : List TaxProfessional) : List TaxProfessional :=
  pool.filter (fun tp => tp.available && decide (tp.currentLoad < tp.maxDailyAppointments))

/-- Modelled from the spec: the complexity/specialization filter of
`findBestTaxPro` (routing.ts absent from src/): the professional's
`maxComplexity` ordinal must be at least the client's level ordinal and the
professional's specialization set must be a superset of the required
specializations. -/
def qualifies (c : RoutingClient) (tp : TaxProfessional) : Bool :=
  decide (complexityOrd (clientComplexityLevel c) ≤ complexityOrd tp.maxComplexity) &&
    (getRequiredSpecializations c).all (fun s => tp.specializations.contains s)

/-- Modelled from the spec: the candidate ranking of `findBestTaxPro`:
highest rating first, then lowest current load, then id for determinism. -/
def rankBefore (a b : TaxProfessional) : Bool :=
  if a.ratingTenths ≠ b.ratingTenths then decide (b.ratingTenths < a.ratingTenths)
  else if a.currentLoad ≠ b.currentLoad then decide (a.currentLoad < b.currentLoad)
  else decide (a.id ≤ b.id)

/-- Insertion step of the ranking sort. -/
def insertRanked (tp : TaxProfessional) : List TaxProfessional → List TaxProfessional
  | [] => [tp]
  | h :: t => if rankBefore tp h then tp :: h :: t else h :: insertRanked tp t

/-- Ranking sort of the candidate pool. -/
def rankCandidates : List TaxProfessional → List TaxProfessional
  | [] => []
  | h :: t => insertRanked h (rankCandidates t)

/-- Modelled from the spec: `findBestTaxPro` of routing.ts (absent from
src/): filter the available professionals (via the source's
`getAvailableTaxPros`) by the qualification predicate, rank them, and
return the top candidate, a reason string, and up to two alternates.  It is
a pure function of the client snapshot and the pool. -/
def findBestTaxPro (pool : List TaxProfessional) (c : RoutingClient) :
    Option TaxProfessional × String × List TaxProfessional :=
  let candidates := rankCandidates ((getAvailableTaxPros pool).filter (qualifies c))
  match candidates with
  | [] => (none, "No available tax professional matches the required complexity and specializations", [])
  | best :: rest => (some best, "Matched by specialization and complexity", rest.take 2)

/-- The initial tax-professional roster of src/dist/database/index.js. -/
def initialTaxPros : List TaxProfessional :=
  [{ id := "tp-001", name := "Sarah Johnson", email := "sarah.johnson@taxfirm.com",
     specializations := [.individual, .self_employment], maxComplexity := .moderate,
     currentLoad := 3, maxDailyAppointments := 8, available := true, ratingTenths := 48 },
   { id := "tp-002", name := "Michael Chen", email := "michael.chen@taxfirm.com",
     specializations := [.investments, .crypto, .foreign_income], maxComplexity := .expert,
     currentLoad := 5, maxDailyAppointments := 6, available := true, ratingTenths := 49 },
   { id := "tp-003", name := "Emily Rodriguez", email := "emily.rodriguez@taxfirm.com",
     specializations := [.small_business, .self_employment, .real_estate],
     maxComplexity := .complex,
     currentLoad := 4, maxDailyAppointments := 7, available := true, ratingTenths := 47 },
   { id := "tp-004", name := "James Wilson", email := "james.wilson@taxfirm.com",
     specializations := [.individual], maxComplexity := .simple,
     currentLoad := 6, maxDailyAppointments := 12, available := true, ratingTenths := 45 },
   { id := "tp-005", name := "Dr. Patricia Martinez", email := "patricia.martinez@taxfirm.com",
     specializations := [.estate_planning, .foreign_income, .audit_representation],
     maxComplexity := .expert,
     currentLoad := 2, maxDailyAppointments := 4, available := true, ratingTenths := 50 }]

/-- The tp-002 roster entry (used as a concrete witness). -/
def michaelChen : TaxProfessional :=
  { id := "tp-002", name := "Michael Chen", email := "michael.chen@taxfirm.com",
    specializations := [.investments, .crypto, .foreign_income], maxComplexity := .expert,
    currentLoad := 5, maxDailyAppointments := 6, available := true, ratingTenths := 49 }

/-!
Concrete states and predicates used by the theorems below.
-/

/-- The prefix invariant the specification asserts for `completedStages`:
viewed as a set it equals exactly the stages strictly before the current
stage in `FLOW_SEQUENCE`. -/
def PrefixInv (st : ConversationFlowState) : Prop :=
  ∀ s : ConversationStage, s ∈ st.completedStages ↔ stageIdx s < stageIdx st.currentStage

/-- The invariant that actually holds for flow states reachable without
`syncFlowWithState`: the prefix invariant, except that once the flow sits at
`complete` a further `advanceFlow` call also pushes `complete` itself, after
which `completedStages` holds every stage. -/
def FlowInv (st : ConversationFlowState) : Prop :=
  PrefixInv st ∨
    (st.currentStage = .complete ∧ ∀ s : ConversationStage, s ∈ st.completedStages)

/-- The stable configuration `syncFlowWithState` drives a state into for a
fixed client snapshot: each ground-truth branch has nothing left to write.
A second pass over a state satisfying this is the identity. -/
def SyncedFacts (c : ClientProfile) (st : ConversationFlowState) : Prop :=
  ((c.intakeCompleted && !st.summaryConfirmed) = true →
    (ConversationStage.welcome ∈ st.completedStages ∧
     ConversationStage.intake_questions ∈ st.completedStages ∧
     st.currentStage ≠ .welcome ∧ st.currentStage ≠ .intake_questions)) ∧
  ((c.documentsCollected.length > 0 || c.documentsPending.length > 0) = true →
    sdSet st.stageData .document_checklist [("generated", .bool true)] = st.stageData) ∧
  (∀ tp : String, c.assignedTaxPro = some tp → st.selectedTaxProId = some tp) ∧
  (∀ a : String, c.appointmentId = some a →
    ConversationStage.appointment_scheduling ∈ st.completedStages)

/-- A client-store snapshot in which an appointment exists (booked through
the appointment surface) while the intake is still open — ground truth the
reconciliation pass accepts. -/
def syncCexClient : ClientProfile :=
  { id := "c1", intakeCompleted := false, documentsCollected := [], documentsPending := [],
    assignedTaxPro := none, appointmentId := some "apt-1" }

/-- The flow state produced by initializing a flow and then syncing it
against `syncCexClient`. -/
def flowCexState : ConversationFlowState :=
  syncFlowCore (some syncCexClient) (initializeFlow "c1" "s1" 0) 0

/-- A flow state sitting at `complete` with the nine prior stages completed,
exactly as `advanceFlow` leaves it on first reaching `complete`. -/
def completeFlowState : ConversationFlowState :=
  { clientId := "c", sessionId := "s", currentStage := .complete,
    completedStages :=
      [.welcome, .intake_questions, .summary_review, .summary_confirmation,
       .document_checklist, .availability_inquiry, .taxpro_routing,
       .appointment_scheduling, .reminders_setup],
    stageData := [], startedAt := 0, lastActivityAt := 0, summaryConfirmed := true,
    selectedTaxProId := some "tp-001", preferredSchedule := none }

/-- A client snapshot with an open intake. -/
def intakePendingClient : ClientProfile :=
  { id := "c", intakeCompleted := false, documentsCollected := [], documentsPending := [],
    assignedTaxPro := none, appointmentId := none }

/-- A routing snapshot of a client holding the crypto special situation. -/
def cryptoClient : RoutingClient :=
  { incomeTypes := ["w2"], deductions := [], filingStatus := "single", dependents := 0,
    specialSituations := [.crypto] }

/-- A routing snapshot of a client with no special situations. -/
def plainClient : RoutingClient :=
  { incomeTypes := ["w2"], deductions := ["standard"], filingStatus := "single",
    dependents := 1, specialSituations := [] }

/-!
Basic lemmas about the stage order and the elementary state transformers.
-/

/-- `stageIdx` is injective: distinct stages occupy distinct positions. -/
lemma stageIdx_inj : ∀ a b : ConversationStage, stageIdx a = stageIdx b → a = b := by
  intro a b
  cases a <;> cases b <;> decide

/-- Every stage index is at most nine. -/
lemma stageIdx_le_nine : ∀ s : ConversationStage, stageIdx s ≤ 9 := by
  intro s
  cases s <;> decide

/-- `complete` is the stage of index nine. -/
lemma eq_complete_of_stageIdx_nine : ∀ s : ConversationStage, stageIdx s = 9 → s = .complete := by
  intro s
  cases s <;> decide

/-- One `stepStage` moves forward by at most one index and never backward. -/
lemma stepStage_bounds :
    ∀ s : ConversationStage,
      stageIdx s ≤ stageIdx (stepStage s) ∧ stageIdx (stepStage s) ≤ stageIdx s + 1 := by
  intro s
  cases s <;> decide

/-- `stepStage` of a non-final stage moves to the stage of the next index. -/
lemma stepStage_idx_of_ne_complete :
    ∀ s : ConversationStage, s ≠ .complete → stageIdx (stepStage s) = stageIdx s + 1 := by
  intro s
  cases s <;> decide

/-- `stepStage` fixes `complete`. -/
lemma stepStage_complete : stepStage .complete = .complete := by decide

lemma mergeStageData_currentStage (st : ConversationFlowState) (sd : Option JsObj) :
    (mergeStageData st sd).currentStage = st.currentStage := by
  cases sd <;> rfl

lemma mergeStageData_completedStages (st : ConversationFlowState) (sd : Option JsObj) :
    (mergeStageData st sd).completedStages = st.completedStages := by
  cases sd <;> rfl

lemma mergeStageData_none (st : ConversationFlowState) :
    mergeStageData st none = st := rfl

lemma pushStage_currentStage (st : ConversationFlowState) (s : ConversationStage) :
    (pushStage st s).currentStage = st.currentStage := by
  unfold pushStage
  split <;> rfl

lemma pushStage_stageData (st : ConversationFlowState) (s : ConversationStage) :
    (pushStage st s).stageData = st.stageData := by
  unfold pushStage
  split <;> rfl

lemma pushStage_summaryConfirmed (st : ConversationFlowState) (s : ConversationStage) :
    (pushStage st s).summaryConfirmed = st.summaryConfirmed := by
  unfold pushStage
  split <;> rfl

lemma pushStage_selectedTaxProId (st : ConversationFlowState) (s : ConversationStage) :
    (pushStage st s).selectedTaxProId = st.selectedTaxProId := by
  unfold pushStage
  split <;> rfl

lemma mem_pushStage (st : ConversationFlowState) (s a : ConversationStage) :
    a ∈ (pushStage st s).completedStages ↔ a ∈ st.completedStages ∨ a = s := by
  unfold pushStage
  split
  · rename_i hmem
    constructor
    · exact fun h => Or.inl h
    · rintro (h | rfl)
      · exact h
      · exact hmem
  · simp

lemma pushStage_eq_of_mem (st : ConversationFlowState) (s : ConversationStage)
    (h : s ∈ st.completedStages) : pushStage st s = st := by
  unfold pushStage
  simp [h]

lemma mem_self_pushStage (st : ConversationFlowState) (s : ConversationStage) :
    s ∈ (pushStage st s).completedStages := by
  rw [mem_pushStage]
  exact Or.inr rfl

lemma pushStage_completedStages_of_not_mem (st : ConversationFlowState) (s : ConversationStage)
    (h : s ∉ st.completedStages) :
    (pushStage st s).completedStages = st.completedStages ++ [s] := by
  unfold pushStage
  simp [h]

lemma mergeStageData_sessionId (st : ConversationFlowState) (sd : Option JsObj) :
    (mergeStageData st sd).sessionId = st.sessionId := by
  cases sd <;> rfl

/-- Unfolding of `advanceFlowCore` with its local bindings expanded. -/
lemma advanceFlowCore_def (client : Option ClientProfile) (st : ConversationFlowState)
    (sd : Option JsObj) (now : Nat) :
    advanceFlowCore client st sd now =
      if (stageCompletionCheck (mergeStageData st sd).currentStage
            (mergeStageData st sd) client).1 then
        { (pushStage (mergeStageData st sd) (mergeStageData st sd).currentStage) with
            currentStage := stepStage (mergeStageData st sd).currentStage
            lastActivityAt := now }
      else mergeStageData st sd := rfl

lemma advanceFlowCore_currentStage (client : Option ClientProfile)
    (st : ConversationFlowState) (sd : Option JsObj) (now : Nat) :
    (advanceFlowCore client st sd now).currentStage =
      if (stageCompletionCheck st.currentStage (mergeStageData st sd) client).1
      then stepStage st.currentStage else st.currentStage := by
  rw [advanceFlowCore_def, mergeStageData_currentStage]
  split
  · rfl
  · exact mergeStageData_currentStage st sd

lemma advanceFlowCore_completedStages (client : Option ClientProfile)
    (st : ConversationFlowState) (sd : Option JsObj) (now : Nat) :
    (advanceFlowCore client st sd now).completedStages =
      if (stageCompletionCheck st.currentStage (mergeStageData st sd) client).1
      then (if st.currentStage ∈ st.completedStages then st.completedStages
            else st.completedStages ++ [st.currentStage])
      else st.completedStages := by
  rw [advanceFlowCore_def, mergeStageData_currentStage]
  split
  · show (pushStage (mergeStageData st sd) st.currentStage).completedStages = _
    unfold pushStage
    rw [mergeStageData_completedStages]
    split
    · exact mergeStageData_completedStages st sd
    · rfl
  · exact mergeStageData_completedStages st sd

lemma advanceFlowCore_stageData_none (client : Option ClientProfile)
    (st : ConversationFlowState) (now : Nat) :
    (advanceFlowCore client st none now).stageData = st.stageData := by
  rw [advanceFlowCore_def, mergeStageData_none]
  split
  · exact pushStage_stageData st st.currentStage
  · rfl

/-- Claim C2: a single `advanceFlow` call never moves `currentStage` to an
earlier stage of `FLOW_SEQUENCE`, and it moves it forward by at most one
position, whatever stage data is supplied and whatever the client snapshot
satisfies. -/
theorem advanceFlow_monotone_one_step (client : Option ClientProfile)
    (st : ConversationFlowState) (sd : Option JsObj) (now : Nat) :
    stageIdx st.currentStage ≤ stageIdx (advanceFlowCore client st sd now).currentStage ∧
    stageIdx (advanceFlowCore client st sd now).currentStage ≤ stageIdx st.currentStage + 1 := by
  rw [advanceFlowCore_currentStage]
  split
  · exact stepStage_bounds st.currentStage
  · exact ⟨Nat.le_refl _, Nat.le_succ _⟩

/-- Claim C3 as stated is false: at `completeFlowState` (a flow sitting at
`complete` exactly as `advanceFlow` leaves it on first arriving there) a
further `advanceFlow` call with no stage data changes `completedStages` by
appending `complete`, so the call is not a no-op on the flow state. -/
theorem advanceFlow_at_complete_cex :
    (advanceFlowCore none completeFlowState none 1).completedStages ≠
      completeFlowState.completedStages := by decide

/-- Claim C3 (amended): when `currentStage` is `complete`, `advanceFlow`
with no stage-data argument leaves `currentStage` and `stageData` unchanged,
but `completedStages` is unchanged only when `complete` already belongs to
it — otherwise the call appends `complete` to `completedStages`. -/
theorem advanceFlow_at_complete_frame (client : Option ClientProfile)
    (st : ConversationFlowState) (now : Nat) (h : st.currentStage = .complete) :
    (advanceFlowCore client st none now).currentStage = .complete ∧
    (advanceFlowCore client st none now).stageData = st.stageData ∧
    (advanceFlowCore client st none now).completedStages =
      (if ConversationStage.complete ∈ st.completedStages then st.completedStages
       else st.completedStages ++ [.complete]) := by
  refine ⟨?_, advanceFlowCore_stageData_none client st now, ?_⟩
  · rw [advanceFlowCore_currentStage, mergeStageData_none, h]
    simp [stageCompletionCheck, stepStage_complete]
  · rw [advanceFlowCore_completedStages, mergeStageData_none, h]
    simp [stageCompletionCheck]

/-- Witness for the amended claim C3 at a concrete state. -/
theorem advanceFlow_at_complete_frame_witness :
    (advanceFlowCore none completeFlowState none 1).currentStage = .complete ∧
    (advanceFlowCore none completeFlowState none 1).stageData = completeFlowState.stageData ∧
    (advanceFlowCore none completeFlowState none 1).completedStages =
      (if ConversationStage.complete ∈ completeFlowState.completedStages then
        completeFlowState.completedStages
       else completeFlowState.completedStages ++ [.complete]) :=
  advanceFlow_at_complete_frame none completeFlowState 1 (by decide)

/-- Claim C9: on a freshly initialized flow with a non-empty session id, for
a client whose intake is not completed, `advanceFlow` with stage data
`started: true` moves `currentStage` to `intake_questions`, and a further
`advanceFlow` call with no stage data leaves it there. -/
theorem fresh_flow_intake_scenario (cid sid : String) (client : ClientProfile)
    (n1 n2 n3 : Nat) (hsid : sid.length > 0) (hintake : client.intakeCompleted = false) :
    (advanceFlowCore (some client) (initializeFlow cid sid n1)
        (some [("started", .bool true)]) n2).currentStage = .intake_questions ∧
    (advanceFlowCore (some client)
        (advanceFlowCore (some client) (initializeFlow cid sid n1)
          (some [("started", .bool true)]) n2) none n3).currentStage = .intake_questions := by
  have h1 : (advanceFlowCore (some client) (initializeFlow cid sid n1)
      (some [("started", .bool true)]) n2).currentStage = .intake_questions := by
    rw [advanceFlowCore_currentStage]
    have hc : (stageCompletionCheck (initializeFlow cid sid n1).currentStage
        (mergeStageData (initializeFlow cid sid n1) (some [("started", .bool true)]))
        (some client)).1 = true := by
      show decide ((mergeStageData (initializeFlow cid sid n1)
        (some [("started", .bool true)])).sessionId.length > 0) = true
      rw [mergeStageData_sessionId]
      exact decide_eq_true hsid
    rw [hc]
    rfl
  refine ⟨h1, ?_⟩
  rw [advanceFlowCore_currentStage, mergeStageData_none, h1]
  simp [stageCompletionCheck, hintake]

/-- Witness for claim C9 at concrete inputs. -/
theorem fresh_flow_intake_scenario_witness :
    (advanceFlowCore (some intakePendingClient) (initializeFlow "c" "s" 0)
        (some [("started", .bool true)]) 1).currentStage = .intake_questions ∧
    (advanceFlowCore (some intakePendingClient)
        (advanceFlowCore (some intakePendingClient) (initializeFlow "c" "s" 0)
          (some [("started", .bool true)]) 1) none 2).currentStage = .intake_questions :=
  fresh_flow_intake_scenario "c" "s" intakePendingClient 0 1 2 (by decide) (by decide)

/-- Claim C8: when a client has no flow state, `advanceFlow`,
`getFlowStatus`, `confirmSummary`, `setSchedulingPreferences` and
`setSelectedTaxPro` each return a null result and leave the stored flow map
unchanged. -/
theorem missing_flow_null_results (client : Option ClientProfile) (flows : ActiveFlows)
    (cid : String) (sd : Option JsObj) (prefs : SchedulePrefs) (tpId : String) (now : Nat)
    (h : lookupFlow flows cid = none) :
    advanceFlow client flows cid sd now = (none, flows) ∧
    getFlowStatus client flows cid = none ∧
    confirmSummary client flows cid now = (none, flows) ∧
    setSchedulingPreferences client flows cid prefs now = (none, flows) ∧
    setSelectedTaxPro client flows cid tpId now = (none, flows) := by
  unfold advanceFlow getFlowStatus confirmSummary setSchedulingPreferences setSelectedTaxPro
  rw [h]
  exact ⟨rfl, rfl, rfl, rfl, rfl⟩

/-- Witness for claim C8 on the empty flow map. -/
theorem missing_flow_null_results_witness :
    advanceFlow none [] "c" none 0 = (none, []) ∧
    getFlowStatus none [] "c" = none ∧
    confirmSummary none [] "c" 0 = (none, []) ∧
    setSchedulingPreferences none [] "c"
      { preferredDates := [], preferredTimes := [], appointmentType := .virtual } 0 =
      (none, []) ∧
    setSelectedTaxPro none [] "c" "tp-001" 0 = (none, []) :=
  missing_flow_null_results none [] "c" none
    { preferredDates := [], preferredTimes := [], appointmentType := .virtual } "tp-001" 0 rfl

/-- Claim C10: `getOrCreateFlowState` on a client with an existing flow
returns that state with only `lastActivityAt` refreshed — the session id,
current stage, completed stages and stage data are untouched and the
`sessionId` argument is discarded. -/
theorem getOrCreateFlowState_preserves_existing (flows : ActiveFlows) (cid sid : String)
    (st : ConversationFlowState) (now : Nat) (h : lookupFlow flows cid = some st) :
    (getOrCreateFlowState flows cid sid now).1 = { st with lastActivityAt := now } ∧
    (getOrCreateFlowState flows cid sid now).1.sessionId = st.sessionId ∧
    (getOrCreateFlowState flows cid sid now).1.currentStage = st.currentStage ∧
    (getOrCreateFlowState flows cid sid now).1.completedStages = st.completedStages ∧
    (getOrCreateFlowState flows cid sid now).1.stageData = st.stageData ∧
    (getOrCreateFlowState flows cid sid now).2 =
      setFlow flows cid { st with lastActivityAt := now } := by
  unfold getOrCreateFlowState
  rw [h]
  exact ⟨rfl, rfl, rfl, rfl, rfl, rfl⟩

/-- Witness for claim C10: an existing flow stored under a different session
id than the one passed in. -/
theorem getOrCreateFlowState_preserves_existing_witness :
    (getOrCreateFlowState (setFlow [] "c" (initializeFlow "c" "s" 0)) "c" "other" 5).1 =
      { initializeFlow "c" "s" 0 with lastActivityAt := 5 } ∧
    (getOrCreateFlowState (setFlow [] "c" (initializeFlow "c" "s" 0)) "c" "other" 5).1.sessionId =
      (initializeFlow "c" "s" 0).sessionId ∧
    (getOrCreateFlowState (setFlow [] "c" (initializeFlow "c" "s" 0)) "c" "other"
        5).1.currentStage = (initializeFlow "c" "s" 0).currentStage ∧
    (getOrCreateFlowState (setFlow [] "c" (initializeFlow "c" "s" 0)) "c" "other"
        5).1.completedStages = (initializeFlow "c" "s" 0).completedStages ∧
    (getOrCreateFlowState (setFlow [] "c" (initializeFlow "c" "s" 0)) "c" "other"
        5).1.stageData = (initializeFlow "c" "s" 0).stageData ∧
    (getOrCreateFlowState (setFlow [] "c" (initializeFlow "c" "s" 0)) "c" "other" 5).2 =
      setFlow (setFlow [] "c" (initializeFlow "c" "s" 0)) "c"
        { initializeFlow "c" "s" 0 with lastActivityAt := 5 } :=
  getOrCreateFlowState_preserves_existing (setFlow [] "c" (initializeFlow "c" "s" 0)) "c"
    "other" (initializeFlow "c" "s" 0) 5 (by decide)

/-!
The completed-stages invariant (claim C1).
-/

lemma stageIdx_complete : stageIdx .complete = 9 := rfl

lemma confirmCore_completedStages (st : ConversationFlowState) :
    (confirmCore st).completedStages = st.completedStages := rfl

lemma confirmCore_currentStage (st : ConversationFlowState) :
    (confirmCore st).currentStage = st.currentStage := rfl

lemma setSchedCore_completedStages (st : ConversationFlowState) (prefs : SchedulePrefs) :
    (setSchedCore st prefs).completedStages = st.completedStages := rfl

lemma setSchedCore_currentStage (st : ConversationFlowState) (prefs : SchedulePrefs) :
    (setSchedCore st prefs).currentStage = st.currentStage := rfl

lemma setTaxProCore_completedStages (st : ConversationFlowState) (tpId : String) :
    (setTaxProCore st tpId).completedStages = st.completedStages := rfl

lemma setTaxProCore_currentStage (st : ConversationFlowState) (tpId : String) :
    (setTaxProCore st tpId).currentStage = st.currentStage := rfl

/-- `FlowInv` only reads `completedStages` and `currentStage`. -/
lemma flowInv_congr (st st' : ConversationFlowState)
    (h1 : st'.completedStages = st.completedStages) (h2 : st'.currentStage = st.currentStage)
    (h : FlowInv st) : FlowInv st' := by
  cases h with
  | inl hL =>
    left
    intro s
    rw [h1, h2]
    exact hL s
  | inr hR =>
    right
    refine ⟨?_, fun s => ?_⟩
    · rw [h2]; exact hR.1
    · rw [h1]; exact hR.2 s

/-- One `advanceFlow` transformation preserves `FlowInv`, whatever stage
data and client snapshot it observes. -/
lemma flowInv_advanceCore (client : Option ClientProfile) (st : ConversationFlowState)
    (sd : Option JsObj) (now : Nat) (h : FlowInv st) :
    FlowInv (advanceFlowCore client st sd now) := by
  have hcur := advanceFlowCore_currentStage client st sd now
  have hcomp := advanceFlowCore_completedStages client st sd now
  by_cases hok : (stageCompletionCheck st.currentStage (mergeStageData st sd) client).1 = true
  · rw [if_pos hok] at hcur hcomp
    cases h with
    | inl hL =>
      have hnotmem : st.currentStage ∉ st.completedStages := by
        intro hm
        exact absurd ((hL st.currentStage).mp hm) (lt_irrefl _)
      rw [if_neg hnotmem] at hcomp
      by_cases hc : st.currentStage = .complete
      · right
        constructor
        · rw [hcur, hc, stepStage_complete]
        · intro s
          rw [hcomp, List.mem_append]
          rcases Nat.lt_or_ge (stageIdx s) (stageIdx st.currentStage) with hlt | hge
          · exact Or.inl ((hL s).mpr hlt)
          · have h9 : stageIdx s = 9 := by
              have hle := stageIdx_le_nine s
              rw [hc, stageIdx_complete] at hge
              omega
            right
            rw [eq_complete_of_stageIdx_nine s h9, ← hc]
            simp
      · left
        intro s
        rw [hcomp, hcur, List.mem_append, stepStage_idx_of_ne_complete st.currentStage hc]
        constructor
        · rintro (hm | hm)
          · have := (hL s).mp hm
            omega
          · simp only [List.mem_singleton] at hm
            rw [hm]
            omega
        · intro hlt
          rcases Nat.lt_or_ge (stageIdx s) (stageIdx st.currentStage) with hlt2 | hge
          · exact Or.inl ((hL s).mpr hlt2)
          · have heq : stageIdx s = stageIdx st.currentStage := by omega
            right
            simp [stageIdx_inj s st.currentStage heq]
    | inr hR =>
      right
      constructor
      · rw [hcur, hR.1, stepStage_complete]
      · intro s
        rw [if_pos (hR.2 st.currentStage)] at hcomp
        rw [hcomp]
        exact hR.2 s
  · rw [if_neg hok] at hcur hcomp
    exact flowInv_congr st _ hcomp hcur h

/-- Claim C1 is false as stated: `flowCexState` is reachable through the
named flow operations (initialize, then `syncFlowWithState` against a
client snapshot holding an appointment), yet its `completedStages`
(`[appointment_scheduling]`) is not the set of stages strictly before its
`currentStage` (`welcome`). -/
theorem flow_completed_prefix_cex :
    ReachableFlow flowCexState ∧
    ¬ (∀ s : ConversationStage,
        s ∈ flowCexState.completedStages ↔
          stageIdx s < stageIdx flowCexState.currentStage) := by
  constructor
  · exact ReachableFlow.sync (some syncCexClient) 0 (ReachableFlow.init "c1" "s1" 0)
  · intro hinv
    have h1 : ConversationStage.appointment_scheduling ∈ flowCexState.completedStages := by
      decide
    have h2 := (hinv .appointment_scheduling).mp h1
    have h3 : ¬ stageIdx ConversationStage.appointment_scheduling <
        stageIdx flowCexState.currentStage := by decide
    exact h3 h2

/-- Claim C1 (amended): for every flow state reachable through
`initializeFlow`, `advanceFlow`, `confirmSummary`, `setSchedulingPreferences`
and `setSelectedTaxPro` — `syncFlowWithState` excluded — `completedStages`
viewed as a set equals exactly the stages strictly preceding `currentStage`,
except that once the flow sits at `complete` a further advance also records
`complete` itself, after which `completedStages` holds all ten stages. -/
theorem flow_completed_prefix_invariant (st : ConversationFlowState)
    (h : ReachableFlowNoSync st) :
    (∀ s : ConversationStage,
        s ∈ st.completedStages ↔ stageIdx s < stageIdx st.currentStage) ∨
    (st.currentStage = .complete ∧ ∀ s : ConversationStage, s ∈ st.completedStages) := by
  induction h with
  | init cid sid now =>
    left
    intro s
    show s ∈ ([] : List ConversationStage) ↔ stageIdx s < stageIdx .welcome
    have h0 : stageIdx ConversationStage.welcome = 0 := rfl
    simp [h0]
  | advance client sd now h ih =>
    exact flowInv_advanceCore client _ sd now ih
  | confirm client now h ih =>
    exact flowInv_advanceCore client _ none now (flowInv_congr _ _ rfl rfl ih)
  | setSched client prefs now h ih =>
    exact flowInv_advanceCore client _ none now (flowInv_congr _ _ rfl rfl ih)
  | setTaxPro client taxProId now h ih =>
    exact flowInv_advanceCore client _ none now (flowInv_congr _ _ rfl rfl ih)

/-- Witness for the amended claim C1 at a freshly initialized flow. -/
theorem flow_completed_prefix_invariant_witness :
    (∀ s : ConversationStage,
        s ∈ (initializeFlow "c" "s" 0).completedStages ↔
          stageIdx s < stageIdx (initializeFlow "c" "s" 0).currentStage) ∨
    ((initializeFlow "c" "s" 0).currentStage = .complete ∧
      ∀ s : ConversationStage, s ∈ (initializeFlow "c" "s" 0).completedStages) :=
  flow_completed_prefix_invariant (initializeFlow "c" "s" 0)
    (ReachableFlowNoSync.init "c" "s" 0)

/-!
Reconciliation lemmas (claim C4).
-/

lemma filter_bne_idem {α β : Type} [DecidableEq α] (m : List (α × β)) (k : α) :
    (m.filter (fun p => p.1 != k)).filter (fun p => p.1 != k) =
      m.filter (fun p => p.1 != k) := by
  induction m with
  | nil => rfl
  | cons h t ih =>
    by_cases hk : h.1 = k
    · simp [List.filter_cons, hk, ih]
    · simp [List.filter_cons, hk, ih]

lemma sdSet_idem (m : List (ConversationStage × JsObj)) (k : ConversationStage) (v : JsObj) :
    sdSet (sdSet m k v) k v = sdSet m k v := by
  unfold sdSet
  simp [List.filter_cons, filter_bne_idem]

lemma setFlow_setFlow (flows : ActiveFlows) (cid : String) (a b : ConversationFlowState) :
    setFlow (setFlow flows cid a) cid b = setFlow flows cid b := by
  unfold setFlow
  simp [List.filter_cons, filter_bne_idem]

lemma lookupFlow_setFlow (flows : ActiveFlows) (cid : String) (st : ConversationFlowState) :
    lookupFlow (setFlow flows cid st) cid = some st := by
  unfold lookupFlow setFlow
  simp

/-- Unfolding of `syncIntake` with its local binding expanded. -/
lemma syncIntake_def (c : ClientProfile) (st : ConversationFlowState) :
    syncIntake c st =
      if (c.intakeCompleted && !st.summaryConfirmed) = true then
        (if (pushStage (pushStage st .welcome) .intake_questions).currentStage = .welcome ∨
            (pushStage (pushStage st .welcome) .intake_questions).currentStage =
              .intake_questions
         then { (pushStage (pushStage st .welcome) .intake_questions) with
                  currentStage := .summary_review }
         else pushStage (pushStage st .welcome) .intake_questions)
      else st := rfl

lemma syncIntake_summaryConfirmed (c : ClientProfile) (st : ConversationFlowState) :
    (syncIntake c st).summaryConfirmed = st.summaryConfirmed := by
  rw [syncIntake_def]
  split
  · split <;> simp [pushStage_summaryConfirmed]
  · rfl

lemma syncIntake_stageData (c : ClientProfile) (st : ConversationFlowState) :
    (syncIntake c st).stageData = st.stageData := by
  rw [syncIntake_def]
  split
  · split <;> simp [pushStage_stageData]
  · rfl

lemma syncIntake_selectedTaxProId (c : ClientProfile) (st : ConversationFlowState) :
    (syncIntake c st).selectedTaxProId = st.selectedTaxProId := by
  rw [syncIntake_def]
  split
  · split <;> simp [pushStage_selectedTaxProId]
  · rfl

lemma syncDocs_completedStages (c : ClientProfile) (st : ConversationFlowState) :
    (syncDocs c st).completedStages = st.completedStages := by
  unfold syncDocs
  split <;> rfl

lemma syncDocs_currentStage (c : ClientProfile) (st : ConversationFlowState) :
    (syncDocs c st).currentStage = st.currentStage := by
  unfold syncDocs
  split <;> rfl

lemma syncDocs_summaryConfirmed (c : ClientProfile) (st : ConversationFlowState) :
    (syncDocs c st).summaryConfirmed = st.summaryConfirmed := by
  unfold syncDocs
  split <;> rfl

lemma syncDocs_selectedTaxProId (c : ClientProfile) (st : ConversationFlowState) :
    (syncDocs c st).selectedTaxProId = st.selectedTaxProId := by
  unfold syncDocs
  split <;> rfl

lemma syncTaxPro_completedStages (c : ClientProfile) (st : ConversationFlowState) :
    (syncTaxPro c st).completedStages = st.completedStages := by
  unfold syncTaxPro
  cases c.assignedTaxPro <;> rfl

lemma syncTaxPro_currentStage (c : ClientProfile) (st : ConversationFlowState) :
    (syncTaxPro c st).currentStage = st.currentStage := by
  unfold syncTaxPro
  cases c.assignedTaxPro <;> rfl

lemma syncTaxPro_summaryConfirmed (c : ClientProfile) (st : ConversationFlowState) :
    (syncTaxPro c st).summaryConfirmed = st.summaryConfirmed := by
  unfold syncTaxPro
  cases c.assignedTaxPro <;> rfl

lemma syncTaxPro_stageData (c : ClientProfile) (st : ConversationFlowState) :
    (syncTaxPro c st).stageData = st.stageData := by
  unfold syncTaxPro
  cases c.assignedTaxPro <;> rfl

lemma syncAppointment_currentStage (c : ClientProfile) (st : ConversationFlowState) :
    (syncAppointment c st).currentStage = st.currentStage := by
  unfold syncAppointment
  cases c.appointmentId with
  | none => rfl
  | some a => exact pushStage_currentStage st _

lemma syncAppointment_summaryConfirmed (c : ClientProfile) (st : ConversationFlowState) :
    (syncAppointment c st).summaryConfirmed = st.summaryConfirmed := by
  unfold syncAppointment
  cases c.appointmentId with
  | none => rfl
  | some a => exact pushStage_summaryConfirmed st _

lemma syncAppointment_stageData (c : ClientProfile) (st : ConversationFlowState) :
    (syncAppointment c st).stageData = st.stageData := by
  unfold syncAppointment
  cases c.appointmentId with
  | none => rfl
  | some a => exact pushStage_stageData st _

lemma syncAppointment_selectedTaxProId (c : ClientProfile) (st : ConversationFlowState) :
    (syncAppointment c st).selectedTaxProId = st.selectedTaxProId := by
  unfold syncAppointment
  cases c.appointmentId with
  | none => rfl
  | some a => exact pushStage_selectedTaxProId st _

lemma syncAppointment_mem_mono (c : ClientProfile) (st : ConversationFlowState)
    (a : ConversationStage) (h : a ∈ st.completedStages) :
    a ∈ (syncAppointment c st).completedStages := by
  unfold syncAppointment
  cases c.appointmentId with
  | none => exact h
  | some x =>
    rw [mem_pushStage]
    exact Or.inl h

lemma syncIntake_props (c : ClientProfile) (st : ConversationFlowState)
    (hcond : (c.intakeCompleted && !st.summaryConfirmed) = true) :
    ConversationStage.welcome ∈ (syncIntake c st).completedStages ∧
    ConversationStage.intake_questions ∈ (syncIntake c st).completedStages ∧
    (syncIntake c st).currentStage ≠ .welcome ∧
    (syncIntake c st).currentStage ≠ .intake_questions := by
  rw [syncIntake_def, if_pos hcond]
  have hw : ConversationStage.welcome ∈
      (pushStage (pushStage st .welcome) .intake_questions).completedStages := by
    rw [mem_pushStage]
    exact Or.inl (mem_self_pushStage st .welcome)
  have hi : ConversationStage.intake_questions ∈
      (pushStage (pushStage st .welcome) .intake_questions).completedStages :=
    mem_self_pushStage _ _
  split
  · exact ⟨hw, hi, by simp, by simp⟩
  · rename_i hor
    push_neg at hor
    exact ⟨hw, hi, hor.1, hor.2⟩

lemma syncIntake_eq_of_synced (c : ClientProfile) (st : ConversationFlowState)
    (h : (c.intakeCompleted && !st.summaryConfirmed) = true →
      (ConversationStage.welcome ∈ st.completedStages ∧
       ConversationStage.intake_questions ∈ st.completedStages ∧
       st.currentStage ≠ .welcome ∧ st.currentStage ≠ .intake_questions)) :
    syncIntake c st = st := by
  rw [syncIntake_def]
  split
  · rename_i hcond
    obtain ⟨hw, hi, hnw, hni⟩ := h hcond
    rw [pushStage_eq_of_mem st .welcome hw, pushStage_eq_of_mem st .intake_questions hi]
    rw [if_neg]
    rintro (hc | hc)
    · exact hnw hc
    · exact hni hc
  · rfl

lemma syncDocs_eq_of_synced (c : ClientProfile) (st : ConversationFlowState)
    (h : (c.documentsCollected.length > 0 || c.documentsPending.length > 0) = true →
      sdSet st.stageData .document_checklist [("generated", .bool true)] = st.stageData) :
    syncDocs c st = st := by
  unfold syncDocs
  split
  · rename_i hcond
    rw [h hcond]
  · rfl

lemma syncTaxPro_eq_of_synced (c : ClientProfile) (st : ConversationFlowState)
    (h : ∀ tp : String, c.assignedTaxPro = some tp → st.selectedTaxProId = some tp) :
    syncTaxPro c st = st := by
  unfold syncTaxPro
  cases hc : c.assignedTaxPro with
  | none => rfl
  | some tp =>
    show ({ st with selectedTaxProId := some tp } : ConversationFlowState) = st
    rw [← h tp hc]

lemma syncAppointment_eq_of_synced (c : ClientProfile) (st : ConversationFlowState)
    (h : ∀ a : String, c.appointmentId = some a →
      ConversationStage.appointment_scheduling ∈ st.completedStages) :
    syncAppointment c st = st := by
  unfold syncAppointment
  cases hc : c.appointmentId with
  | none => rfl
  | some a => exact pushStage_eq_of_mem st _ (h a hc)

lemma syncClientFacts_eq_of_synced (c : ClientProfile) (st : ConversationFlowState)
    (h : SyncedFacts c st) : syncClientFacts c st = st := by
  obtain ⟨h1, h2, h3, h4⟩ := h
  unfold syncClientFacts
  rw [syncIntake_eq_of_synced c st h1, syncDocs_eq_of_synced c st h2,
      syncTaxPro_eq_of_synced c st h3, syncAppointment_eq_of_synced c st h4]

lemma syncDocs_docs_synced (c : ClientProfile) (st : ConversationFlowState)
    (hcond : (c.documentsCollected.length > 0 || c.documentsPending.length > 0) = true) :
    sdSet (syncDocs c st).stageData .document_checklist [("generated", .bool true)] =
      (syncDocs c st).stageData := by
  unfold syncDocs
  rw [if_pos hcond]
  exact sdSet_idem st.stageData _ _

lemma syncTaxPro_taxpro_synced (c : ClientProfile) (st : ConversationFlowState)
    (tp : String) (hc : c.assignedTaxPro = some tp) :
    (syncTaxPro c st).selectedTaxProId = some tp := by
  unfold syncTaxPro
  rw [hc]

lemma syncAppointment_appt_synced (c : ClientProfile) (st : ConversationFlowState)
    (a : String) (hc : c.appointmentId = some a) :
    ConversationStage.appointment_scheduling ∈ (syncAppointment c st).completedStages := by
  unfold syncAppointment
  rw [hc]
  exact mem_self_pushStage st _

/-- A full reconciliation pass leaves the state in the stable configuration. -/
lemma syncedFacts_syncClientFacts (c : ClientProfile) (st : ConversationFlowState) :
    SyncedFacts c (syncClientFacts c st) := by
  refine ⟨?_, ?_, ?_, ?_⟩
  · intro hcond
    have hsum : (syncClientFacts c st).summaryConfirmed = st.summaryConfirmed := by
      unfold syncClientFacts
      rw [syncAppointment_summaryConfirmed, syncTaxPro_summaryConfirmed,
          syncDocs_summaryConfirmed, syncIntake_summaryConfirmed]
    rw [hsum] at hcond
    obtain ⟨hw, hi, hnw, hni⟩ := syncIntake_props c st hcond
    unfold syncClientFacts
    refine ⟨?_, ?_, ?_, ?_⟩
    · exact syncAppointment_mem_mono _ _ _
        (by rw [syncTaxPro_completedStages, syncDocs_completedStages]; exact hw)
    · exact syncAppointment_mem_mono _ _ _
        (by rw [syncTaxPro_completedStages, syncDocs_completedStages]; exact hi)
    · rw [syncAppointment_currentStage, syncTaxPro_currentStage, syncDocs_currentStage]
      exact hnw
    · rw [syncAppointment_currentStage, syncTaxPro_currentStage, syncDocs_currentStage]
      exact hni
  · intro hcond
    unfold syncClientFacts
    rw [syncAppointment_stageData, syncTaxPro_stageData]
    exact syncDocs_docs_synced c _ hcond
  · intro tp hc
    unfold syncClientFacts
    rw [syncAppointment_selectedTaxProId]
    exact syncTaxPro_taxpro_synced c _ tp hc
  · intro a hc
    unfold syncClientFacts
    exact syncAppointment_appt_synced c _ a hc

lemma syncFlowCore_some (c : ClientProfile) (st : ConversationFlowState) (now : Nat) :
    syncFlowCore (some c) st now =
      { syncClientFacts c st with lastActivityAt := now } := rfl

/-- The reconciliation pass is idempotent at a fixed client snapshot and
clock value. -/
lemma syncFlowCore_idem (client : Option ClientProfile) (st : ConversationFlowState)
    (now : Nat) :
    syncFlowCore client (syncFlowCore client st now) now = syncFlowCore client st now := by
  cases client with
  | none => rfl
  | some c =>
    have key : ∀ y : ConversationFlowState, SyncedFacts c y →
        syncFlowCore (some c) y now = { y with lastActivityAt := now } := by
      intro y hy
      rw [syncFlowCore_some, syncClientFacts_eq_of_synced c y hy]
    have h1 : syncFlowCore (some c) st now =
        { syncClientFacts c st with lastActivityAt := now } := syncFlowCore_some c st now
    have hy : SyncedFacts c (syncFlowCore (some c) st now) := by
      rw [h1]
      exact syncedFacts_syncClientFacts c st
    rw [key _ hy, h1]

lemma syncIntake_currentStage_mono (c : ClientProfile) (st : ConversationFlowState) :
    stageIdx st.currentStage ≤ stageIdx (syncIntake c st).currentStage := by
  rw [syncIntake_def]
  split
  · split
    · rename_i hor
      rw [pushStage_currentStage, pushStage_currentStage] at hor
      rcases hor with h | h
      · rw [h]
        show stageIdx ConversationStage.welcome ≤ stageIdx ConversationStage.summary_review
        decide
      · rw [h]
        show stageIdx ConversationStage.intake_questions ≤
          stageIdx ConversationStage.summary_review
        decide
    · rw [pushStage_currentStage, pushStage_currentStage]
  · exact Nat.le_refl _

/-- The reconciliation pass never moves the stage backward. -/
lemma syncFlowCore_currentStage_mono (client : Option ClientProfile)
    (st : ConversationFlowState) (now : Nat) :
    stageIdx st.currentStage ≤ stageIdx (syncFlowCore client st now).currentStage := by
  cases client with
  | none => exact Nat.le_refl _
  | some c =>
    rw [syncFlowCore_some]
    show stageIdx st.currentStage ≤ stageIdx (syncClientFacts c st).currentStage
    unfold syncClientFacts
    rw [syncAppointment_currentStage, syncTaxPro_currentStage, syncDocs_currentStage]
    exact syncIntake_currentStage_mono c st

/-- Unfolding of `syncFlowWithState` with its local bindings expanded. -/
lemma syncFlowWithState_def (client : Option ClientProfile) (flows : ActiveFlows)
    (cid sid : String) (now : Nat) :
    syncFlowWithState client flows cid sid now =
      (syncFlowCore client
          (match lookupFlow flows cid with
            | some st => st
            | none => initializeFlow cid sid now) now,
        setFlow flows cid
          (syncFlowCore client
            (match lookupFlow flows cid with
              | some st => st
              | none => initializeFlow cid sid now) now)) := rfl

/-- Claim C4: `syncFlowWithState` is idempotent — a second call with the
same client-store snapshot, arguments and clock returns exactly the flow
state and flow map produced by the first — and no call ever moves an
existing flow's `currentStage` to an earlier stage of the sequence. -/
theorem syncFlowWithState_idempotent_monotone (client : Option ClientProfile)
    (flows : ActiveFlows) (cid sid : String) (now : Nat) :
    (syncFlowWithState client (syncFlowWithState client flows cid sid now).2 cid sid now =
      syncFlowWithState client flows cid sid now) ∧
    (∀ st : ConversationFlowState, lookupFlow flows cid = some st →
      stageIdx st.currentStage ≤
        stageIdx (syncFlowWithState client flows cid sid now).1.currentStage) := by
  constructor
  · cases hl : lookupFlow flows cid with
    | some st =>
      simp only [syncFlowWithState_def, hl, lookupFlow_setFlow, syncFlowCore_idem,
        setFlow_setFlow]
    | none =>
      simp only [syncFlowWithState_def, hl, lookupFlow_setFlow, syncFlowCore_idem,
        setFlow_setFlow]
  · intro st hst
    simp only [syncFlowWithState_def, hst]
    exact syncFlowCore_currentStage_mono client st now

/-- Witness for claim C4 on a concrete stored flow. -/
theorem syncFlowWithState_idempotent_monotone_witness :
    (syncFlowWithState none
        (syncFlowWithState none (setFlow [] "c" (initializeFlow "c" "s" 0)) "c" "s" 1).2
        "c" "s" 1 =
      syncFlowWithState none (setFlow [] "c" (initializeFlow "c" "s" 0)) "c" "s" 1) ∧
    stageIdx (initializeFlow "c" "s" 0).currentStage ≤
      stageIdx (syncFlowWithState none (setFlow [] "c" (initializeFlow "c" "s" 0))
          "c" "s" 1).1.currentStage :=
  ⟨(syncFlowWithState_idempotent_monotone none (setFlow [] "c" (initializeFlow "c" "s" 0))
      "c" "s" 1).1,
   (syncFlowWithState_idempotent_monotone none (setFlow [] "c" (initializeFlow "c" "s" 0))
      "c" "s" 1).2 (initializeFlow "c" "s" 0) (by decide)⟩

/-!
Complexity and routing theorems (claims C5, C6, C7).
-/

/-- Claim C5: for every integer score in [0,100], `getComplexityLevel`
realizes the four inclusive tiers — simple [0,20], moderate [21,50],
complex [51,80], expert [81,100] — with the stated boundary values, and the
source's `determineMaxComplexity` agrees with it on the score. -/
theorem getComplexityLevel_tiers (s : Int) (h0 : 0 ≤ s) (h100 : s ≤ 100) :
    ((getComplexityLevel s = .simple ↔ (0 ≤ s ∧ s ≤ 20)) ∧
     (getComplexityLevel s = .moderate ↔ (21 ≤ s ∧ s ≤ 50)) ∧
     (getComplexityLevel s = .complex ↔ (51 ≤ s ∧ s ≤ 80)) ∧
     (getComplexityLevel s = .expert ↔ (81 ≤ s ∧ s ≤ 100))) ∧
    getComplexityLevel 20 = .simple ∧ getComplexityLevel 21 = .moderate ∧
    getComplexityLevel 80 = .complex ∧ getComplexityLevel 81 = .expert ∧
    determineMaxComplexity 0 s = getComplexityLevel s := by
  refine ⟨?_, by decide, by decide, by decide, by decide, ?_⟩
  · unfold getComplexityLevel
    split_ifs with h81 h51 h21 <;> simp_all <;> omega
  · unfold determineMaxComplexity getComplexityLevel
    split_ifs <;> rfl

/-- Witness for claim C5 at score 35. -/
theorem getComplexityLevel_tiers_witness :
    ((getComplexityLevel 35 = .simple ↔ ((0 : Int) ≤ 35 ∧ (35 : Int) ≤ 20)) ∧
     (getComplexityLevel 35 = .moderate ↔ ((21 : Int) ≤ 35 ∧ (35 : Int) ≤ 50)) ∧
     (getComplexityLevel 35 = .complex ↔ ((51 : Int) ≤ 35 ∧ (35 : Int) ≤ 80)) ∧
     (getComplexityLevel 35 = .expert ↔ ((81 : Int) ≤ 35 ∧ (35 : Int) ≤ 100))) ∧
    getComplexityLevel 20 = .simple ∧ getComplexityLevel 21 = .moderate ∧
    getComplexityLevel 80 = .complex ∧ getComplexityLevel 81 = .expert ∧
    determineMaxComplexity 0 35 = getComplexityLevel 35 :=
  getComplexityLevel_tiers 35 (by decide) (by decide)

/-- Claim C6: `calculateComplexityScore` is monotone in special-situation
tags — extending a client with a tag not already present never decreases
the score. -/
theorem calculateComplexityScore_monotone (c : RoutingClient) (t : SpecialSituation)
    (ht : t ∉ c.specialSituations) :
    calculateComplexityScore c ≤
      calculateComplexityScore { c with specialSituations := t :: c.specialSituations } := by
  unfold calculateComplexityScore
  apply min_le_min (le_refl 100)
  show baseScore c + (c.specialSituations.map situationWeight).sum ≤
    baseScore { c with specialSituations := t :: c.specialSituations } +
      ((t :: c.specialSituations).map situationWeight).sum
  have hbase : baseScore { c with specialSituations := t :: c.specialSituations } =
      baseScore c := rfl
  rw [hbase, List.map_cons, List.sum_cons]
  omega

/-- Witness for claim C6: adding crypto to a client without it. -/
theorem calculateComplexityScore_monotone_witness :
    calculateComplexityScore plainClient ≤
      calculateComplexityScore
        { plainClient with specialSituations := .crypto :: plainClient.specialSituations } :=
  calculateComplexityScore_monotone plainClient .crypto (by decide)

lemma mem_insertRanked (tp a : TaxProfessional) (l : List TaxProfessional) :
    a ∈ insertRanked tp l ↔ a = tp ∨ a ∈ l := by
  induction l with
  | nil => simp [insertRanked]
  | cons h t ih =>
    unfold insertRanked
    split
    · simp
    · simp [ih]
      tauto

lemma mem_rankCandidates (a : TaxProfessional) (l : List TaxProfessional) :
    a ∈ rankCandidates l ↔ a ∈ l := by
  induction l with
  | nil => simp [rankCandidates]
  | cons h t ih =>
    unfold rankCandidates
    rw [mem_insertRanked, ih]
    simp

/-- Claim C7: every professional `findBestTaxPro` returns — as the match or
among the alternates — is drawn from the qualified pool: complexity ordinal
at least the client's, strictly under the daily load cap, available, and
covering every required specialization. -/
theorem findBestTaxPro_sound (pool : List TaxProfessional) (c : RoutingClient)
    (tp : TaxProfessional)
    (h : (findBestTaxPro pool c).1 = some tp ∨ tp ∈ (findBestTaxPro pool c).2.2) :
    complexityOrd (clientComplexityLevel c) ≤ complexityOrd tp.maxComplexity ∧
    tp.currentLoad < tp.maxDailyAppointments ∧
    tp.available = true ∧
    ∀ s : TaxSpecialization, s ∈ getRequiredSpecializations c → s ∈ tp.specializations := by
  have hmem : tp ∈ rankCandidates ((getAvailableTaxPros pool).filter (qualifies c)) := by
    unfold findBestTaxPro at h
    rcases hc : rankCandidates ((getAvailableTaxPros pool).filter (qualifies c)) with
      _ | ⟨best, rest⟩
    · rw [hc] at h
      simp at h
    · rw [hc] at h
      rcases h with h | h
      · have hb : best = tp := by simpa using h
        rw [← hb]
        exact List.mem_cons_self best rest
      · have ht2 : tp ∈ List.take 2 rest := by simpa using h
        exact List.mem_cons_of_mem best (List.mem_of_mem_take ht2)
  rw [mem_rankCandidates, List.mem_filter] at hmem
  obtain ⟨havail, hqual⟩ := hmem
  unfold getAvailableTaxPros at havail
  rw [List.mem_filter] at havail
  obtain ⟨_, hflags⟩ := havail
  simp only [Bool.and_eq_true, decide_eq_true_eq] at hflags
  unfold qualifies at hqual
  simp only [Bool.and_eq_true, decide_eq_true_eq, List.all_eq_true] at hqual
  refine ⟨hqual.1, hflags.2, hflags.1, ?_⟩
  intro s hs
  have hcont := hqual.2 s hs
  simpa using hcont

/-- Witness for claim C7: the crypto client is matched to tp-002, the only
qualified professional in the initial roster. -/
theorem findBestTaxPro_sound_witness :
    ∃ tp : TaxProfessional,
      (findBestTaxPro initialTaxPros cryptoClient).1 = some tp ∧
      (complexityOrd (clientComplexityLevel cryptoClient) ≤ complexityOrd tp.maxComplexity ∧
       tp.currentLoad < tp.maxDailyAppointments ∧
       tp.available = true ∧
       ∀ s : TaxSpecialization, s ∈ getRequiredSpecializations cryptoClient →
         s ∈ tp.specializations) := by
  refine ⟨michaelChen, by decide, ?_⟩
  exact findBestTaxPro_sound initialTaxPros cryptoClient michaelChen (Or.inl (by decide))
